import Mathlib

/-!
Verification of the container_swift bulk-ingestion pipeline specification
against the repository's source.

Sections:
1. Form validation from `frontend_react/src/pages/CreatePage.js`
   (`validateForm`, `handleSwiftCodeChange`) and the Mongo `$jsonSchema`
   pattern of `backend/mongo_init/01-init.js`.
2. The job data model of `frontend_react/src/components/UploadStatus.js`
   and spec section 3.
3. The ingestion worker and job-store model (the `upload-service` code is
   referenced by the compose file but absent from the repository snapshot,
   so these are modelled from the spec, sections 4.2-4.5).
4. The registry duplicate-rejection model (unique index on `swiftCode` in
   `backend/mongo_init/01-init.js` plus spec section 4.2).
5. API-client functions from the frontend service modules
   (`fetchSwiftCodesCount`, `checkUploadApiHealth`, `uploadSwiftCodesFile`).

JavaScript strings are modelled as Lean `String` (a list of characters);
string length counts characters, a faithful rendering of JS `length` for
the ASCII data these functions handle. JS `toUpperCase` is modelled on the
ASCII range, which covers every string the validator can accept.

Not embedded: `calculateProgress` of UploadStatus.js.  Its main branch
computes `Math.floor((sum / total_records) * 100)` in IEEE-754 binary64,
and that computation is not the exact floor `(100 * sum) / total_records`:
at `sum = 29, total_records = 100` the double product is
28.999999999999996, so the program returns 28 where exact arithmetic gives
29.  An exact Nat/Int rendering of this function would therefore be
unfaithful, and binary64 semantics are outside this development.
-/

/-! ### Section 1: CreatePage.js form validation -/

/-- Character class `[A-Z]` of the SWIFT-code regex. -/
def isUpperAZ (c : Char) : Bool := 'A' ≤ c && c ≤ 'Z'

/-- Character class `[A-Z0-9]` of the SWIFT-code regex. -/
def isUpperOrDigit (c : Char) : Bool := isUpperAZ c || ('0' ≤ c && c ≤ '9')

/-- The anchored regex `^[A-Z]{4}[A-Z]{2}[A-Z0-9]{2}([A-Z0-9]{3})?$` used by
`validateForm` in CreatePage.js and by the Mongo `$jsonSchema` for
`swift_codes.swiftCode`.  It matches exactly the strings of length 8
(4+2+2) or length 11 (4+2+2+3) drawn from the indicated classes. -/
def swiftPattern (s : String) : Bool :=
  match s.data with
  | [c1, c2, c3, c4, c5, c6, c7, c8] =>
      isUpperAZ c1 && isUpperAZ c2 && isUpperAZ c3 && isUpperAZ c4 &&
      isUpperAZ c5 && isUpperAZ c6 && isUpperOrDigit c7 && isUpperOrDigit c8
  | [c1, c2, c3, c4, c5, c6, c7, c8, c9, c10, c11] =>
      isUpperAZ c1 && isUpperAZ c2 && isUpperAZ c3 && isUpperAZ c4 &&
      isUpperAZ c5 && isUpperAZ c6 && isUpperOrDigit c7 && isUpperOrDigit c8 &&
      isUpperOrDigit c9 && isUpperOrDigit c10 && isUpperOrDigit c11
  | _ => false

/-- The anchored regex `^[A-Z]+$` used for the country ISO2 field. -/
def regexUpperPlus (s : String) : Bool := !s.data.isEmpty && s.data.all isUpperAZ

/-- JS `String.prototype.endsWith`. -/
def jsEndsWith (s sfx : String) : Bool := sfx.data.isSuffixOf s.data

/-- JS `String.prototype.toUpperCase` on the ASCII range. -/
def jsToUpperChar (c : Char) : Char :=
  if 'a' ≤ c && c ≤ 'z' then Char.ofNat (c.toNat - 32) else c

/-- JS `toUpperCase` lifted to strings. -/
def jsToUpper (s : String) : String := ⟨s.data.map jsToUpperChar⟩

/-- The `formData` state of CreatePage.js. -/
structure SwiftFormData where
  swiftCode : String
  address : String
  countryISO2 : String
  countryName : String
  isHeadquarter : Bool
deriving DecidableEq

/-- The `errors` object produced by `validateForm`; a key is present
  (`some reason`) exactly when the corresponding check fails.  Fields are
  listed in the order the JS assigns the keys. -/
structure ValidationErrors where
  swiftCode : Option String
  isHeadquarter : Option String
  address : Option String
  countryISO2 : Option String
  countryName : Option String
deriving DecidableEq

/-- CreatePage.js `validateForm` (lines 52-89), translated check for check.
  JS falsiness of a string field is emptiness. -/
def validateForm (fd : SwiftFormData) : ValidationErrors :=
  let swiftErr : Option String :=
    if fd.swiftCode == "" then some "SWIFT code is required"
    else if !(fd.swiftCode.length == 8 || fd.swiftCode.length == 11) then
      some "SWIFT code must be either 8 or 11 characters long"
    else if !(swiftPattern fd.swiftCode) then some "Invalid SWIFT code format"
    else none
  let hqErr : Option String :=
    if fd.swiftCode.length == 11 && jsEndsWith fd.swiftCode "XXX" && !fd.isHeadquarter then
      some "SWIFT codes ending with XXX must be headquarters"
    else if fd.isHeadquarter && (!(jsEndsWith fd.swiftCode "XXX") || fd.swiftCode.length != 11) then
      some "Only SWIFT codes ending with XXX can be headquarters"
    else none
  let addrErr : Option String :=
    if fd.address == "" then some "Address is required" else none
  let isoErr : Option String :=
    if fd.countryISO2 == "" then some "Country code is required"
    else if fd.countryISO2.length != 2 then some "Country code must be exactly 2 characters"
    else if !(regexUpperPlus fd.countryISO2) then some "Country code must contain only letters"
    else none
  let nameErr : Option String :=
    if fd.countryName == "" then some "Country name is required" else none
  ⟨swiftErr, hqErr, addrErr, isoErr, nameErr⟩

/-- JS `Object.keys(errors).length > 0`: some check failed. -/
def hasErrors (e : ValidationErrors) : Bool :=
  e.swiftCode.isSome || e.isHeadquarter.isSome || e.address.isSome ||
  e.countryISO2.isSome || e.countryName.isSome

/-- CreatePage.js `handleSubmit` calls `createSwiftCode` (the registry POST)
  exactly when `validateForm` returned no errors. -/
def submitsToRegistry (fd : SwiftFormData) : Bool := !hasErrors (validateForm fd)

/-- CreatePage.js `handleSwiftCodeChange` (lines 36-50): uppercases the input
  and derives `isHeadquarter` from the 11-character `XXX` suffix, overwriting
  the flag in the previous state. -/
def handleSwiftCodeChange (fd : SwiftFormData) (value : String) : SwiftFormData :=
  let sc := jsToUpper value
  { fd with
      swiftCode := sc
      isHeadquarter := sc.length == 11 && jsEndsWith sc "XXX" }

/-- The `swiftCode` component of `validateForm`, as an independent function
  of the identifier alone (used to state per-field independence). -/
def swiftCodeError (s : String) : Option String :=
  if s == "" then some "SWIFT code is required"
  else if !(s.length == 8 || s.length == 11) then
    some "SWIFT code must be either 8 or 11 characters long"
  else if !(swiftPattern s) then some "Invalid SWIFT code format"
  else none

/-- The `isHeadquarter` component of `validateForm` as an independent function. -/
def hqError (s : String) (flag : Bool) : Option String :=
  if s.length == 11 && jsEndsWith s "XXX" && !flag then
    some "SWIFT codes ending with XXX must be headquarters"
  else if flag && (!(jsEndsWith s "XXX") || s.length != 11) then
    some "Only SWIFT codes ending with XXX can be headquarters"
  else none

/-- The `address` component of `validateForm` as an independent function. -/
def addressError (s : String) : Option String :=
  if s == "" then some "Address is required" else none

/-- The `countryISO2` component of `validateForm` as an independent function. -/
def countryISO2Error (s : String) : Option String :=
  if s == "" then some "Country code is required"
  else if s.length != 2 then some "Country code must be exactly 2 characters"
  else if !(regexUpperPlus s) then some "Country code must contain only letters"
  else none

/-- The `countryName` component of `validateForm` as an independent function. -/
def countryNameError (s : String) : Option String :=
  if s == "" then some "Country name is required" else none

theorem validateForm_decomp (fd : SwiftFormData) :
    validateForm fd =
      ⟨swiftCodeError fd.swiftCode, hqError fd.swiftCode fd.isHeadquarter,
       addressError fd.address, countryISO2Error fd.countryISO2,
       countryNameError fd.countryName⟩ := rfl

/-! ### Section 2: the upload-job data model -/

/-- Job lifecycle states (spec section 3; the four values rendered by the
  frontend badge logic). -/
inductive JobStatus where
  | pending
  | processing
  | completed
  | failed
deriving DecidableEq

/-- The upload-job projection polled by the frontend (spec section 3 and the
  fields UploadStatus.js reads). -/
structure UploadJob where
  id : Nat
  filename : String
  status : JobStatus
  total_records : Nat
  processed : Nat
  skipped : Nat
  failed : Nat
  error_details : List (String × String)
  message : String
deriving DecidableEq

/-! ### Section 3: ingestion worker (spec sections 4.2, 4.4, 4.5)

The `upload-service` backend is referenced by the compose file
(`build: ./upload-service`) but its code is not part of the repository
snapshot; the worker below is modelled from the spec. -/

/-- Modelled from the spec: the per-row outcome after validation and, for
  accepted rows, the registry call with its bounded retries (sections 4.1,
  4.2, 4.4).  `transientExhausted` is a row whose registry calls all failed
  transiently; a run of these feeds the consecutive-failure threshold. -/
inductive RowResult where
  | invalidRow (ident reason : String)
  | created
  | duplicateRejected
  | permanentFailure (ident reason : String)
  | transientExhausted (ident : String)
deriving DecidableEq

/-- Modelled from the spec: the per-row update of section 4.4 — rejected rows
  and registry failures increment `failed` and append to `error_details`;
  `Created` increments `processed`; `DuplicateRejected` increments `skipped`. -/
def stepRow (j : UploadJob) (r : RowResult) : UploadJob :=
  match r with
  | .invalidRow ident reason =>
      { j with failed := j.failed + 1, error_details := j.error_details ++ [(ident, reason)] }
  | .created => { j with processed := j.processed + 1 }
  | .duplicateRejected => { j with skipped := j.skipped + 1 }
  | .permanentFailure ident reason =>
      { j with failed := j.failed + 1, error_details := j.error_details ++ [(ident, reason)] }
  | .transientExhausted ident =>
      { j with failed := j.failed + 1,
               error_details := j.error_details ++ [(ident, "registry unreachable after retries")] }

/-- Modelled from the spec: the consecutive registry-unreachable streak;
  any other outcome resets it (section 4.2). -/
def consecAfter (c : Nat) (r : RowResult) : Nat :=
  match r with
  | .transientExhausted _ => c + 1
  | _ => 0

/-- Modelled from the spec: terminal transition "all rows consumed →
  completed, message summarizes totals" (section 4.4). -/
def finishJob (j : UploadJob) : UploadJob :=
  { j with
      status := .completed
      message := "Completed: " ++ toString j.processed ++ " processed, " ++
        toString j.skipped ++ " skipped, " ++ toString j.failed ++ " failed" }

/-- Modelled from the spec: the worker loop over parsed rows, carrying the
  consecutive-unreachable streak; when the streak reaches the threshold the
  job fails early with the dependency-outage message and remaining rows are
  not attempted (sections 4.2, 4.4). -/
def runRows (threshold : Nat) : UploadJob → Nat → List RowResult → UploadJob
  | j, _, [] => finishJob j
  | j, c, r :: rest =>
      let c' := consecAfter c r
      if threshold ≤ c' then { j with status := .failed, message := "registry unavailable" }
      else runRows threshold (stepRow j r) c' rest

/-- Modelled from the spec: a fresh job record as created at submission time
  (section 4.3, initial status `pending`). -/
def newJob (ident : Nat) (filename : String) : UploadJob :=
  ⟨ident, filename, .pending, 0, 0, 0, 0, [], "File uploaded, processing will begin shortly"⟩

/-- Modelled from the spec: transition pending → processing when the worker
  starts (section 4.4). -/
def startJob (j : UploadJob) : UploadJob :=
  { j with status := .processing, message := "parsing file" }

/-- Modelled from the spec: `total_records` is set once parsing completes. -/
def setTotal (j : UploadJob) (n : Nat) : UploadJob := { j with total_records := n }

/-- Modelled from the spec: the whole worker run — `none` stands for an
  unreadable file or one with zero parseable rows (file-level failure),
  `some rows` for a parsed file (sections 4.4 and 7). -/
def runJob (threshold : Nat) (j : UploadJob) (parse : Option (List RowResult)) : UploadJob :=
  match parse with
  | none =>
      let j' := startJob j
      { j' with
          status := .failed
          message := "file unreadable or contains no parseable rows" }
  | some rows => runRows threshold (setTotal (startJob j) rows.length) 0 rows

/-- The worker's counter state after consuming the first `k` rows — the
  job's lifetime as a trace of moments. -/
def jobAt (j0 : UploadJob) (rows : List RowResult) (k : Nat) : UploadJob :=
  (rows.take k).foldl stepRow j0

/-- Sum of the three outcome counters. -/
def counterSum (j : UploadJob) : Nat := j.processed + j.skipped + j.failed

/-! ### Section 4: registry duplicate rejection

The registry's store enforces a unique index on `swiftCode`
(`backend/mongo_init/01-init.js` line 50); the spec's Registry Client
reports a collision as `DuplicateRejected` (section 4.2). -/

/-- Modelled from the spec: the registry as the set of identifiers it holds;
  `submit` is "create record, fail if an identifier collision exists" —
  the unique index on `swiftCode` makes the second insertion of an
  identifier a duplicate rejection. -/
def registrySubmit (reg : List String) (ident : String) : RowResult × List String :=
  if ident ∈ reg then (.duplicateRejected, reg) else (.created, ident :: reg)

/-- Modelled from the spec: submitting a sequence of identifiers (possibly
  spanning several uploads) through the shared registry, recording each
  row's outcome. -/
def registryTrace (reg : List String) : List String → List (String × RowResult)
  | [] => []
  | ident :: rest =>
      let p := registrySubmit reg ident
      (ident, p.1) :: registryTrace p.2 rest

/-- Counts the `Created` outcomes a given identifier received. -/
def createdCount (ident : String) (tr : List (String × RowResult)) : Nat :=
  tr.countP (fun p => p.1 == ident && p.2 == RowResult.created)

/-- Counts the `DuplicateRejected` outcomes a given identifier received. -/
def dupCount (ident : String) (tr : List (String × RowResult)) : Nat :=
  tr.countP (fun p => p.1 == ident && p.2 == RowResult.duplicateRejected)

/-- Number of times an identifier occurs in a list of submissions. -/
def occCount (ident : String) (l : List String) : Nat :=
  l.countP (fun x => x == ident)

/-! ### Section 5: API-client functions and the upload facade -/

/-- Response body of the dedicated count endpoint, `{count: n}`. -/
structure CountResp where
  count : Nat
deriving DecidableEq

/-- The JSON body returned by the listing request: either an array of
  records (only their number matters here) or something else, mirroring the
  `Array.isArray(response.data)` test. -/
inductive JsonData where
  | arr (items : List String)
  | nonArray
deriving DecidableEq

/-- apiService.js `fetchSwiftCodesCount` (part_001 lines 47-75), with each
  awaited request represented by its outcome: `countResp` is the dedicated
  `/api/v1/swift-code/count` request, `listResp` the fallback listing
  request issued with `&limit=1000&skip=0`.  The inner catch turns a count
  failure into the fallback; an error of the fallback itself reaches the
  outer catch, which rethrows. -/
def fetchSwiftCodesCount (countResp : Except String CountResp)
    (listResp : Except String JsonData) : Except String CountResp :=
  match countResp with
  | .ok d => .ok d
  | .error _ =>
    match listResp with
    | .error e => .error e
    | .ok v =>
      let count := match v with
        | .arr items => items.length
        | .nonArray => 0
      .ok ⟨if count < 1000 then count else 1000⟩

/-- An HTTP response as axios delivers it to `await`: axios resolves only
  when the status passes its default `validateStatus` (2xx), so any network
  failure or non-2xx response arrives as the `error` case. -/
structure HttpResp where
  status : Nat
deriving DecidableEq

/-- uploadApiService.js `checkUploadApiHealth` (part_000 lines 187-195):
  returns `response.status === 200` when the GET resolved and `false` from
  the catch block otherwise; it is a total function — it never throws. -/
def checkUploadApiHealth (outcome : Except String HttpResp) : Bool :=
  match outcome with
  | .ok r => r.status == 200
  | .error _ => false

/-- A submitted file: its name and what the worker will find when it later
  parses it (`none` = unreadable / zero parseable rows). -/
structure UploadedFile where
  name : String
  rows : Option (List RowResult)
deriving DecidableEq

/-- The Job Store's contents, in creation order (spec section 4.3). -/
abbrev JobStore : Type := List UploadJob

/-- Modelled from the spec: `submitUpload` of the Upload Service Facade
  (sections 4.5, 6, 7): a malformed request (missing file) fails
  synchronously; otherwise a job record is created in the store with status
  `pending` and the handle is returned — the worker has not run yet, so the
  returned handle never reflects any processing failure. -/
def submitUpload (file : Option UploadedFile) (st : JobStore) :
    Except String (UploadJob × JobStore) :=
  match file with
  | none => .error "No file provided"
  | some f =>
      let j := newJob (List.length st) f.name
      .ok (j, List.append st [j])

/-- Modelled from the spec: `getStatus` point lookup in the Job Store. -/
def getStatus (st : JobStore) (ident : Nat) : Option UploadJob :=
  List.find? (fun j => j.id == ident) st

/-- Modelled from the spec: the background worker run launched after
  submission — it rewrites the stored job with the outcome of `runJob`,
  which is the only channel through which processing failures surface. -/
def processJob (threshold : Nat) (st : JobStore) (ident : Nat)
    (parse : Option (List RowResult)) : JobStore :=
  List.map (fun j => if j.id == ident then runJob threshold j parse else j) st

/-! ### Theorems -/

/-- C10: `checkUploadApiHealth` never throws (it is a total Bool-valued
  function of the request's outcome) and returns `true` exactly when the GET
  `/health` request completed with HTTP status 200; every error — network
  failure or a non-2xx status that axios raises — yields `false`. -/
theorem checkUploadApiHealth_true_iff_status200 (o : Except String HttpResp) :
    checkUploadApiHealth o = true ↔ ∃ r, o = Except.ok r ∧ r.status = 200 := by
  cases o with
  | ok r =>
      simp only [checkUploadApiHealth, beq_iff_eq]
      constructor
      · intro h; exact ⟨r, rfl, h⟩
      · rintro ⟨r', hr, hs⟩
        cases hr
        exact hs
  | error e =>
      simp only [checkUploadApiHealth]
      constructor
      · intro h; exact absurd h (by simp)
      · rintro ⟨r', hr, _⟩; cases hr

/-- C8: when the dedicated count endpoint's request throws, the error is not
  propagated; `fetchSwiftCodesCount` instead issues the listing request with
  `limit=1000` and returns `{count: n}` for a listing of `n < 1000` records
  and `{count: 1000}` otherwise. -/
theorem fetchSwiftCodesCount_estimates_on_count_failure (e : String) (items : List String) :
    (items.length < 1000 →
      fetchSwiftCodesCount (Except.error e) (Except.ok (JsonData.arr items)) =
        Except.ok ⟨items.length⟩) ∧
    (1000 ≤ items.length →
      fetchSwiftCodesCount (Except.error e) (Except.ok (JsonData.arr items)) =
        Except.ok ⟨1000⟩) := by
  constructor
  · intro h
    simp [fetchSwiftCodesCount, h]
  · intro h
    simp [fetchSwiftCodesCount, Nat.not_lt.mpr h]

/-- Witness for C8 at a concrete error and a 3-element listing. -/
theorem fetchSwiftCodesCount_estimates_on_count_failure_witness :
    fetchSwiftCodesCount (Except.error "count endpoint down")
        (Except.ok (JsonData.arr ["a", "b", "c"])) = Except.ok ⟨3⟩ :=
  (fetchSwiftCodesCount_estimates_on_count_failure "count endpoint down" ["a", "b", "c"]).1
    (by decide)

theorem swiftCodeError_none_iff (s : String) :
    swiftCodeError s = none ↔
      s ≠ "" ∧ (s.length = 8 ∨ s.length = 11) ∧ swiftPattern s = true := by
  unfold swiftCodeError
  split_ifs with h1 h2 h3 <;> simp_all
  omega

theorem hasErrors_false_fields (e : ValidationErrors) (h : hasErrors e = false) :
    e.swiftCode = none ∧ e.isHeadquarter = none ∧ e.address = none ∧
    e.countryISO2 = none ∧ e.countryName = none := by
  obtain ⟨a, b, c, d, f⟩ := e
  cases a <;> cases b <;> cases c <;> cases d <;> cases f <;> simp_all [hasErrors]

/-- C1: a row is submitted to the registry (CreatePage.js `handleSubmit`
  calls `createSwiftCode`) only when `validateForm` reported no errors,
  which requires the identifier to be present, of length exactly 8 or 11,
  and matching `^[A-Z]\x7b4\x7d[A-Z]\x7b2\x7d[A-Z0-9]\x7b2\x7d([A-Z0-9]\x7b3\x7d)?$`;
  any identifier violating length or pattern is a validation failure and is
  never forwarded. -/
theorem submitted_identifier_is_valid (fd : SwiftFormData)
    (h : submitsToRegistry fd = true) :
    fd.swiftCode ≠ "" ∧ (fd.swiftCode.length = 8 ∨ fd.swiftCode.length = 11) ∧
    swiftPattern fd.swiftCode = true := by
  have hfe : hasErrors (validateForm fd) = false := by
    unfold submitsToRegistry at h
    cases hb : hasErrors (validateForm fd) with
    | false => rfl
    | true => rw [hb] at h; exact absurd h (by simp)
  have hnone : (validateForm fd).swiftCode = none := (hasErrors_false_fields _ hfe).1
  rw [validateForm_decomp] at hnone
  exact (swiftCodeError_none_iff fd.swiftCode).mp hnone

/-- Witness for C1 at a concrete valid row. -/
theorem submitted_identifier_is_valid_witness :
    "DEUTDEFF" ≠ "" ∧ ("DEUTDEFF".length = 8 ∨ "DEUTDEFF".length = 11) ∧
    swiftPattern "DEUTDEFF" = true :=
  submitted_identifier_is_valid ⟨"DEUTDEFF", "Taunusanlage 12", "DE", "Germany", false⟩
    (by decide)

/-- C2: entering an identifier whose uppercased form is 11 characters and
  ends in `XXX` makes `handleSwiftCodeChange` set `isHeadquarter` to `true`
  whatever flag the previous form state carried — the derived classification
  overwrites the supplied flag — and the resulting state then passes
  `validateForm`'s headquarters-consistency check. -/
theorem xxx_suffix_overrides_headquarters_flag (fd : SwiftFormData) (v : String)
    (h11 : (jsToUpper v).length = 11) (hx : jsEndsWith (jsToUpper v) "XXX" = true) :
    (handleSwiftCodeChange fd v).isHeadquarter = true ∧
    (validateForm (handleSwiftCodeChange fd v)).isHeadquarter = none := by
  have hflag : (handleSwiftCodeChange fd v).isHeadquarter = true := by
    simp [handleSwiftCodeChange, h11, hx]
  refine ⟨hflag, ?_⟩
  rw [validateForm_decomp]
  show hqError (handleSwiftCodeChange fd v).swiftCode (handleSwiftCodeChange fd v).isHeadquarter = none
  have hsc : (handleSwiftCodeChange fd v).swiftCode = jsToUpper v := rfl
  rw [hsc, hflag]
  simp [hqError, h11, hx]

/-- Witness for C2: a lowercase 11-character identifier ending in `xxx`,
  entered into a state whose flag is `false`. -/
theorem xxx_suffix_overrides_headquarters_flag_witness :
    (handleSwiftCodeChange ⟨"", "", "", "", false⟩ "deutdeffxxx").isHeadquarter = true ∧
    (validateForm (handleSwiftCodeChange ⟨"", "", "", "", false⟩ "deutdeffxxx")).isHeadquarter =
      none :=
  xxx_suffix_overrides_headquarters_flag ⟨"", "", "", "", false⟩ "deutdeffxxx"
    (by decide) (by decide)

/-- Number of distinct rejection reasons `validateForm` reports for a row. -/
def errorCount (e : ValidationErrors) : Nat :=
  (if e.swiftCode.isSome then 1 else 0) + (if e.isHeadquarter.isSome then 1 else 0) +
  (if e.address.isSome then 1 else 0) + (if e.countryISO2.isSome then 1 else 0) +
  (if e.countryName.isSome then 1 else 0)

/-- C6 counterexample: the row `("DEUTDEFF", address="", ISO2="X1",
  countryName="", flag=false)` violates the country-code rule (rule 4 of
  section 4.1, the first of its violated rules in the claim's order) and
  also the address and country-name rules; `validateForm` reports all three
  reasons, not only the first one — so the reported rejection is not "that
  of the first violated rule", and the rules are not applied
  first-failure-wins across fields. -/
theorem validateForm_reports_multiple_reasons :
    errorCount (validateForm ⟨"DEUTDEFF", "", "X1", "", false⟩) = 3 ∧
    (validateForm ⟨"DEUTDEFF", "", "X1", "", false⟩).countryISO2 =
      some "Country code must contain only letters" ∧
    (validateForm ⟨"DEUTDEFF", "", "X1", "", false⟩).address = some "Address is required" ∧
    (validateForm ⟨"DEUTDEFF", "", "X1", "", false⟩).countryName =
      some "Country name is required" := by
  decide

/-- C6 amended: `validateForm` evaluates each field's rule group
  independently and reports one reason per violated field (so a row
  violating several rules carries several reasons); only inside a single
  field are the checks ordered with the first failure winning — for the
  identifier: presence, then length 8 or 11, then pattern; a row is
  submitted to the registry exactly when no field reports a reason. -/
theorem validateForm_fieldwise_first_failure (fd gd : SwiftFormData) :
    (fd.swiftCode = gd.swiftCode → (validateForm fd).swiftCode = (validateForm gd).swiftCode) ∧
    (fd.swiftCode = gd.swiftCode → fd.isHeadquarter = gd.isHeadquarter →
      (validateForm fd).isHeadquarter = (validateForm gd).isHeadquarter) ∧
    (fd.address = gd.address → (validateForm fd).address = (validateForm gd).address) ∧
    (fd.countryISO2 = gd.countryISO2 →
      (validateForm fd).countryISO2 = (validateForm gd).countryISO2) ∧
    (fd.countryName = gd.countryName →
      (validateForm fd).countryName = (validateForm gd).countryName) ∧
    (fd.swiftCode = "" → (validateForm fd).swiftCode = some "SWIFT code is required") ∧
    (fd.swiftCode ≠ "" → fd.swiftCode.length ≠ 8 → fd.swiftCode.length ≠ 11 →
      (validateForm fd).swiftCode = some "SWIFT code must be either 8 or 11 characters long") ∧
    (fd.swiftCode ≠ "" → (fd.swiftCode.length = 8 ∨ fd.swiftCode.length = 11) →
      swiftPattern fd.swiftCode = false →
      (validateForm fd).swiftCode = some "Invalid SWIFT code format") ∧
    (submitsToRegistry fd = true ↔
      (validateForm fd).swiftCode = none ∧ (validateForm fd).isHeadquarter = none ∧
      (validateForm fd).address = none ∧ (validateForm fd).countryISO2 = none ∧
      (validateForm fd).countryName = none) := by
  rw [validateForm_decomp fd, validateForm_decomp gd]
  refine ⟨?_, ?_, ?_, ?_, ?_, ?_, ?_, ?_, ?_⟩
  · intro h; show swiftCodeError fd.swiftCode = swiftCodeError gd.swiftCode; rw [h]
  · intro h h'
    show hqError fd.swiftCode fd.isHeadquarter = hqError gd.swiftCode gd.isHeadquarter
    rw [h, h']
  · intro h; show addressError fd.address = addressError gd.address; rw [h]
  · intro h; show countryISO2Error fd.countryISO2 = countryISO2Error gd.countryISO2; rw [h]
  · intro h; show countryNameError fd.countryName = countryNameError gd.countryName; rw [h]
  · intro h; show swiftCodeError fd.swiftCode = some "SWIFT code is required"
    simp [swiftCodeError, h]
  · intro h h8 h11
    show swiftCodeError fd.swiftCode = some "SWIFT code must be either 8 or 11 characters long"
    simp [swiftCodeError, h, h8, h11]
  · intro h hlen hpat
    show swiftCodeError fd.swiftCode = some "Invalid SWIFT code format"
    have : (fd.swiftCode.length == 8 || fd.swiftCode.length == 11) = true := by
      rcases hlen with h8 | h11
      · simp [h8]
      · simp [h11]
    simp [swiftCodeError, h, this, hpat]
  · constructor
    · intro h
      have hfe : hasErrors (validateForm fd) = false := by
        unfold submitsToRegistry at h
        cases hb : hasErrors (validateForm fd) with
        | false => rfl
        | true => rw [hb] at h; exact absurd h (by simp)
      have := hasErrors_false_fields _ hfe
      rw [validateForm_decomp fd] at this
      exact this
    · intro ⟨h1, h2, h3, h4, h5⟩
      unfold submitsToRegistry
      rw [validateForm_decomp fd]
      unfold hasErrors
      simp only at h1 h2 h3 h4 h5
      simp [h1, h2, h3, h4, h5]

/-- Witness for C6 amended, at an empty identifier: presence is the first
  failing identifier check and its reason is the one reported. -/
theorem validateForm_fieldwise_first_failure_witness :
    (validateForm ⟨"", "a", "DE", "Germany", false⟩).swiftCode =
      some "SWIFT code is required" :=
  (validateForm_fieldwise_first_failure ⟨"", "a", "DE", "Germany", false⟩
    ⟨"", "a", "DE", "Germany", false⟩).2.2.2.2.2.1 rfl

theorem stepRow_total_records (j : UploadJob) (r : RowResult) :
    (stepRow j r).total_records = j.total_records := by
  cases r <;> rfl

theorem stepRow_counterSum (j : UploadJob) (r : RowResult) :
    counterSum (stepRow j r) = counterSum j + 1 := by
  cases r <;> simp [stepRow, counterSum] <;> omega

theorem stepRow_counters_mono (j : UploadJob) (r : RowResult) :
    j.processed ≤ (stepRow j r).processed ∧ j.skipped ≤ (stepRow j r).skipped ∧
    j.failed ≤ (stepRow j r).failed := by
  cases r <;> simp [stepRow]

theorem foldl_stepRow_total_records (l : List RowResult) (j : UploadJob) :
    (l.foldl stepRow j).total_records = j.total_records := by
  induction l generalizing j with
  | nil => rfl
  | cons r rest ih => rw [List.foldl_cons, ih, stepRow_total_records]

theorem foldl_stepRow_counterSum (l : List RowResult) (j : UploadJob) :
    counterSum (l.foldl stepRow j) = counterSum j + l.length := by
  induction l generalizing j with
  | nil => simp
  | cons r rest ih =>
      rw [List.foldl_cons, ih, stepRow_counterSum, List.length_cons]
      omega

theorem foldl_stepRow_counters_mono (l : List RowResult) (j : UploadJob) :
    j.processed ≤ (l.foldl stepRow j).processed ∧
    j.skipped ≤ (l.foldl stepRow j).skipped ∧
    j.failed ≤ (l.foldl stepRow j).failed := by
  induction l generalizing j with
  | nil => exact ⟨le_refl _, le_refl _, le_refl _⟩
  | cons r rest ih =>
      have h1 := stepRow_counters_mono j r
      have h2 := ih (stepRow j r)
      rw [List.foldl_cons]
      exact ⟨le_trans h1.1 h2.1, le_trans h1.2.1 h2.2.1, le_trans h1.2.2 h2.2.2⟩

theorem runRows_counters_prefix (threshold : Nat) (rows : List RowResult)
    (j : UploadJob) (c : Nat) :
    ∃ m, m ≤ rows.length ∧
      (runRows threshold j c rows).processed = ((rows.take m).foldl stepRow j).processed ∧
      (runRows threshold j c rows).skipped = ((rows.take m).foldl stepRow j).skipped ∧
      (runRows threshold j c rows).failed = ((rows.take m).foldl stepRow j).failed := by
  induction rows generalizing j c with
  | nil => exact ⟨0, Nat.le_refl _, rfl, rfl, rfl⟩
  | cons r rest ih =>
      unfold runRows
      by_cases hthr : threshold ≤ consecAfter c r
      · rw [if_pos hthr]
        exact ⟨0, Nat.zero_le _, rfl, rfl, rfl⟩
      · rw [if_neg hthr]
        obtain ⟨m, hm, h1, h2, h3⟩ := ih (stepRow j r) (consecAfter c r)
        refine ⟨m + 1, by simpa using Nat.succ_le_succ hm, ?_, ?_, ?_⟩ <;>
          simpa [List.take_succ_cons, List.foldl_cons] using (by assumption)

/-- The job state as seen by a poller after the worker has consumed the
  first `k` rows of a parsed file. -/
def workerTrace (ident : Nat) (fname : String) (rows : List RowResult) (k : Nat) : UploadJob :=
  jobAt (setTotal (startJob (newJob ident fname)) rows.length) rows k

theorem workerTrace_mono_aux (ident : Nat) (fname : String) (rows : List RowResult)
    (k k' : Nat) (hkk : k ≤ k') :
    (workerTrace ident fname rows k).processed ≤ (workerTrace ident fname rows k').processed ∧
    (workerTrace ident fname rows k).skipped ≤ (workerTrace ident fname rows k').skipped ∧
    (workerTrace ident fname rows k).failed ≤ (workerTrace ident fname rows k').failed := by
  have hsplit : rows.take k' = rows.take k ++ (rows.drop k).take (k' - k) :=
    calc rows.take k' = rows.take (k + (k' - k)) := by
          congr 1
          omega
    _ = rows.take k ++ (rows.drop k).take (k' - k) := List.take_add rows k (k' - k)
  unfold workerTrace jobAt
  rw [hsplit, List.foldl_append]
  exact foldl_stepRow_counters_mono _ _

/-- C3 (spec-modelled, the upload-service worker is absent from the
  snapshot): along the worker's lifetime — the trace of job states after
  each consumed row — the sum `processed + skipped + failed` never exceeds
  `total_records` (which is `rows.length` once parsing fixed it), each of
  the three counters is monotonically non-decreasing from any earlier
  moment `k` to any later moment `k'`, and the counters of an actual
  `runRows` execution (including an early dependency-outage stop) coincide
  with those of some prefix of this trace. -/
theorem uploadJob_counter_invariants (ident : Nat) (fname : String) (threshold : Nat)
    (rows : List RowResult) (k k' : Nat) (hkk : k ≤ k') (hk : k' ≤ rows.length) :
    counterSum (workerTrace ident fname rows k') ≤
      (workerTrace ident fname rows k').total_records ∧
    (workerTrace ident fname rows k).processed ≤ (workerTrace ident fname rows k').processed ∧
    (workerTrace ident fname rows k).skipped ≤ (workerTrace ident fname rows k').skipped ∧
    (workerTrace ident fname rows k).failed ≤ (workerTrace ident fname rows k').failed ∧
    (∃ m, m ≤ rows.length ∧
      (runRows threshold (setTotal (startJob (newJob ident fname)) rows.length) 0 rows).processed =
        (workerTrace ident fname rows m).processed ∧
      (runRows threshold (setTotal (startJob (newJob ident fname)) rows.length) 0 rows).skipped =
        (workerTrace ident fname rows m).skipped ∧
      (runRows threshold (setTotal (startJob (newJob ident fname)) rows.length) 0 rows).failed =
        (workerTrace ident fname rows m).failed) := by
  refine ⟨?_, (workerTrace_mono_aux ident fname rows k k' hkk).1,
    (workerTrace_mono_aux ident fname rows k k' hkk).2.1,
    (workerTrace_mono_aux ident fname rows k k' hkk).2.2, ?_⟩
  · have ht : (workerTrace ident fname rows k').total_records = rows.length := by
      unfold workerTrace jobAt
      rw [foldl_stepRow_total_records]
      rfl
    have hs : counterSum (workerTrace ident fname rows k') = Min.min k' rows.length := by
      unfold workerTrace jobAt
      rw [foldl_stepRow_counterSum, List.length_take]
      simp [counterSum, newJob, startJob, setTotal]
    rw [ht, hs]
    omega
  · exact runRows_counters_prefix threshold rows _ 0

/-- Witness for C3: the bound at moment 2 of a 3-row file. -/
theorem uploadJob_counter_invariants_witness :
    counterSum (workerTrace 0 "batch.csv"
        [RowResult.created, RowResult.duplicateRejected, RowResult.invalidRow "BADCODE" "bad"] 2) ≤
      (workerTrace 0 "batch.csv"
        [RowResult.created, RowResult.duplicateRejected, RowResult.invalidRow "BADCODE" "bad"] 2).total_records :=
  (uploadJob_counter_invariants 0 "batch.csv" 3
    [RowResult.created, RowResult.duplicateRejected, RowResult.invalidRow "BADCODE" "bad"]
    1 2 (by decide) (by decide)).1

theorem runRows_outcome (threshold : Nat) (rows : List RowResult) (j : UploadJob)
    (c : Nat) :
    ((runRows threshold j c rows).status = JobStatus.completed ∧
      counterSum (runRows threshold j c rows) = counterSum j + rows.length ∧
      (runRows threshold j c rows).total_records = j.total_records) ∨
    ((runRows threshold j c rows).status = JobStatus.failed ∧
      (runRows threshold j c rows).message = "registry unavailable" ∧
      counterSum (runRows threshold j c rows) < counterSum j + rows.length ∧
      (runRows threshold j c rows).total_records = j.total_records) := by
  induction rows generalizing j c with
  | nil =>
      left
      exact ⟨rfl, by simp [runRows, finishJob, counterSum], rfl⟩
  | cons r rest ih =>
      unfold runRows
      by_cases hthr : threshold ≤ consecAfter c r
      · rw [if_pos hthr]
        right
        refine ⟨rfl, rfl, ?_, rfl⟩
        show counterSum j < counterSum j + (r :: rest).length
        rw [List.length_cons]
        omega
      · rw [if_neg hthr]
        rcases ih (stepRow j r) (consecAfter c r) with ⟨h1, h2, h3⟩ | ⟨h1, h2, h3, h4⟩
        · left
          refine ⟨h1, ?_, by rw [h3, stepRow_total_records]⟩
          rw [h2, stepRow_counterSum, List.length_cons]
          omega
        · right
          refine ⟨h1, h2, ?_, by rw [h4, stepRow_total_records]⟩
          rw [stepRow_counterSum] at h3
          rw [List.length_cons]
          omega

/-- The whole worker run for one job handle, parse outcome included. -/
def runUploadJob (threshold ident : Nat) (fname : String)
    (parse : Option (List RowResult)) : UploadJob :=
  runJob threshold (newJob ident fname) parse

/-- C4 (spec-modelled, the upload-service worker is absent from the
  snapshot): once the worker finishes a parsed file the job is terminal
  (completed or failed) and `processed + skipped + failed` equals
  `total_records`, except when the consecutive registry-unreachable
  threshold terminated it early — then the sum is smaller and the message
  says "registry unavailable". -/
theorem terminal_job_counter_totals (threshold ident : Nat) (fname : String)
    (rows : List RowResult) :
    ((runUploadJob threshold ident fname (some rows)).status = JobStatus.completed ∨
      (runUploadJob threshold ident fname (some rows)).status = JobStatus.failed) ∧
    (counterSum (runUploadJob threshold ident fname (some rows)) =
        (runUploadJob threshold ident fname (some rows)).total_records ∨
      ((runUploadJob threshold ident fname (some rows)).message = "registry unavailable" ∧
        counterSum (runUploadJob threshold ident fname (some rows)) <
          (runUploadJob threshold ident fname (some rows)).total_records)) := by
  have hinit : counterSum (setTotal (startJob (newJob ident fname)) rows.length) = 0 := rfl
  have hinitt : (setTotal (startJob (newJob ident fname)) rows.length).total_records =
      rows.length := rfl
  have hrun := runRows_outcome threshold rows
    (setTotal (startJob (newJob ident fname)) rows.length) 0
  have hred : runUploadJob threshold ident fname (some rows) =
      runRows threshold (setTotal (startJob (newJob ident fname)) rows.length) 0 rows := rfl
  rw [hred]
  rcases hrun with ⟨h1, h2, h3⟩ | ⟨h1, h2, h3, h4⟩
  · exact ⟨Or.inl h1, Or.inl (by rw [h2, hinit, h3, hinitt]; omega)⟩
  · exact ⟨Or.inr h1, Or.inr ⟨h2, by rw [h4, hinitt]; rw [hinit] at h3; omega⟩⟩

/-- Witness for C4: threshold 2, a 4-row file whose third row exhausts the
  consecutive-unreachable streak. -/
theorem terminal_job_counter_totals_witness :
    ((runUploadJob 2 5 "batch.csv" (some [RowResult.created,
        RowResult.transientExhausted "AAAABBCC", RowResult.transientExhausted "DDDDEEFF",
        RowResult.created])).status = JobStatus.completed ∨
      (runUploadJob 2 5 "batch.csv" (some [RowResult.created,
        RowResult.transientExhausted "AAAABBCC", RowResult.transientExhausted "DDDDEEFF",
        RowResult.created])).status = JobStatus.failed) ∧
    (counterSum (runUploadJob 2 5 "batch.csv" (some [RowResult.created,
        RowResult.transientExhausted "AAAABBCC", RowResult.transientExhausted "DDDDEEFF",
        RowResult.created])) =
        (runUploadJob 2 5 "batch.csv" (some [RowResult.created,
          RowResult.transientExhausted "AAAABBCC", RowResult.transientExhausted "DDDDEEFF",
          RowResult.created])).total_records ∨
      ((runUploadJob 2 5 "batch.csv" (some [RowResult.created,
          RowResult.transientExhausted "AAAABBCC", RowResult.transientExhausted "DDDDEEFF",
          RowResult.created])).message = "registry unavailable" ∧
        counterSum (runUploadJob 2 5 "batch.csv" (some [RowResult.created,
          RowResult.transientExhausted "AAAABBCC", RowResult.transientExhausted "DDDDEEFF",
          RowResult.created])) <
          (runUploadJob 2 5 "batch.csv" (some [RowResult.created,
            RowResult.transientExhausted "AAAABBCC", RowResult.transientExhausted "DDDDEEFF",
            RowResult.created])).total_records)) :=
  terminal_job_counter_totals 2 5 "batch.csv" [RowResult.created,
    RowResult.transientExhausted "AAAABBCC", RowResult.transientExhausted "DDDDEEFF",
    RowResult.created]

theorem occCount_cons (ident i : String) (l : List String) :
    occCount ident (i :: l) = occCount ident l + (if i = ident then 1 else 0) := by
  rw [occCount, occCount, List.countP_cons]
  by_cases hi : i = ident
  · simp [hi]
  · simp [hi]

theorem registryTrace_cons_mem (reg : List String) (ident : String) (rest : List String)
    (h : ident ∈ reg) :
    registryTrace reg (ident :: rest) =
      (ident, RowResult.duplicateRejected) :: registryTrace reg rest := by
  show (let p := registrySubmit reg ident
        (ident, p.1) :: registryTrace p.2 rest) = _
  rw [registrySubmit, if_pos h]

theorem registryTrace_cons_not_mem (reg : List String) (ident : String) (rest : List String)
    (h : ident ∉ reg) :
    registryTrace reg (ident :: rest) =
      (ident, RowResult.created) :: registryTrace (ident :: reg) rest := by
  show (let p := registrySubmit reg ident
        (ident, p.1) :: registryTrace p.2 rest) = _
  rw [registrySubmit, if_neg h]

theorem registryTrace_already_member (ids : List String) (reg : List String) (ident : String)
    (h : ident ∈ reg) :
    createdCount ident (registryTrace reg ids) = 0 ∧
    dupCount ident (registryTrace reg ids) = occCount ident ids := by
  induction ids generalizing reg with
  | nil => exact ⟨rfl, rfl⟩
  | cons i rest ih =>
      by_cases hmem : i ∈ reg
      · rw [registryTrace_cons_mem reg i rest hmem]
        have hrec := ih reg h
        constructor
        · rw [createdCount, List.countP_cons] at *
          simp [hrec.1, createdCount]
        · rw [dupCount, occCount, List.countP_cons, List.countP_cons]
          have := hrec.2
          rw [dupCount, occCount] at this
          rw [this]
          simp
      · have hne : i ≠ ident := fun he => hmem (he ▸ h)
        rw [registryTrace_cons_not_mem reg i rest hmem]
        have hrec := ih (i :: reg) (List.mem_cons_of_mem _ h)
        constructor
        · rw [createdCount, List.countP_cons]
          have := hrec.1
          rw [createdCount] at this
          rw [this]
          simp [hne]
        · rw [dupCount, occCount, List.countP_cons, List.countP_cons]
          have := hrec.2
          rw [dupCount, occCount] at this
          rw [this]
          simp [hne]

theorem registryTrace_fresh (ids : List String) (reg : List String) (ident : String)
    (h : ident ∉ reg) (hocc : 1 ≤ occCount ident ids) :
    createdCount ident (registryTrace reg ids) = 1 ∧
    dupCount ident (registryTrace reg ids) = occCount ident ids - 1 := by
  induction ids generalizing reg with
  | nil => exact absurd hocc (by simp [occCount])
  | cons i rest ih =>
      by_cases hi : i = ident
      · subst hi
        rw [registryTrace_cons_not_mem reg i rest h]
        have hrec := registryTrace_already_member rest (i :: reg) i (List.mem_cons_self _ _)
        constructor
        · rw [createdCount, List.countP_cons]
          have := hrec.1
          rw [createdCount] at this
          rw [this]
          simp
        · rw [dupCount, occCount, List.countP_cons, List.countP_cons]
          have := hrec.2
          rw [dupCount, occCount] at this
          rw [this]
          simp
      · have hocc' : 1 ≤ occCount ident rest := by
          rw [occCount_cons, if_neg hi] at hocc
          omega
        by_cases hmem : i ∈ reg
        · rw [registryTrace_cons_mem reg i rest hmem]
          have hrec := ih reg h hocc'
          constructor
          · rw [createdCount, List.countP_cons]
            have := hrec.1
            rw [createdCount] at this
            rw [this]
            simp [hi]
          · rw [dupCount, occCount, List.countP_cons, List.countP_cons]
            have := hrec.2
            rw [dupCount, occCount] at this
            rw [this]
            simp [hi]
        · have h' : ident ∉ i :: reg := by
            intro hc
            rcases List.mem_cons.mp hc with hc1 | hc2
            · exact hi hc1.symm
            · exact h hc2
          rw [registryTrace_cons_not_mem reg i rest hmem]
          have hrec := ih (i :: reg) h' hocc'
          constructor
          · rw [createdCount, List.countP_cons]
            have := hrec.1
            rw [createdCount] at this
            rw [this]
            simp [hi]
          · rw [dupCount, occCount, List.countP_cons, List.countP_cons]
            have := hrec.2
            rw [dupCount, occCount] at this
            rw [this]
            simp [hi]

/-- C5 (spec-modelled registry on top of the unique `swiftCode` index of
  01-init.js): an identifier not yet in the registry that occurs once in
  each of two uploads — submitted through the shared registry as the
  concatenated row sequence — receives exactly one `Created` and exactly
  one `DuplicateRejected` outcome, and a `DuplicateRejected` row increments
  only `skipped` (never `failed`, never the job status): one `processed`
  increment and one `skipped` increment in total, and no job-fatal error. -/
theorem duplicate_identifier_across_two_uploads (reg : List String) (ident : String)
    (u1 u2 : List String) (h : ident ∉ reg)
    (h1 : occCount ident u1 = 1) (h2 : occCount ident u2 = 1) :
    createdCount ident (registryTrace reg (u1 ++ u2)) = 1 ∧
    dupCount ident (registryTrace reg (u1 ++ u2)) = 1 ∧
    (∀ j : UploadJob,
      (stepRow j RowResult.duplicateRejected).skipped = j.skipped + 1 ∧
      (stepRow j RowResult.duplicateRejected).processed = j.processed ∧
      (stepRow j RowResult.duplicateRejected).failed = j.failed ∧
      (stepRow j RowResult.duplicateRejected).status = j.status ∧
      (stepRow j RowResult.created).processed = j.processed + 1 ∧
      (stepRow j RowResult.created).skipped = j.skipped ∧
      (stepRow j RowResult.created).failed = j.failed ∧
      (stepRow j RowResult.created).status = j.status) := by
  have hocc : occCount ident (u1 ++ u2) = 2 := by
    rw [occCount, List.countP_append]
    rw [occCount] at h1 h2
    omega
  have hfresh := registryTrace_fresh (u1 ++ u2) reg ident h (by rw [hocc]; omega)
  refine ⟨hfresh.1, by rw [hfresh.2, hocc], ?_⟩
  intro j
  exact ⟨rfl, rfl, rfl, rfl, rfl, rfl, rfl, rfl⟩

/-- Witness for C5: an empty registry and two one-row uploads of the same
  identifier (plus an unrelated row). -/
theorem duplicate_identifier_across_two_uploads_witness :
    createdCount "DEUTDEFF" (registryTrace [] (["DEUTDEFF"] ++ ["CHASUS33", "DEUTDEFF"])) = 1 :=
  (duplicate_identifier_across_two_uploads [] "DEUTDEFF" ["DEUTDEFF"] ["CHASUS33", "DEUTDEFF"]
    (by decide) (by decide) (by decide)).1

theorem getLast?_append_singleton {α : Type} (l : List α) (a : α) :
    (l ++ [a]).getLast? = some a := by
  induction l with
  | nil => rfl
  | cons x xs ih =>
      cases xs with
      | nil => rfl
      | cons y ys =>
          rw [List.cons_append, List.cons_append, List.getLast?_cons_cons]
          exact ih

/-- C7 (spec-modelled facade; the upload-service backend is absent from the
  snapshot): a well-formed submission always returns a job handle whose
  status is the initial `pending` — the store records the job and the
  worker has not yet touched it, so the handle is produced before any
  background processing and never reflects a processing failure; the
  worker's later run (`processJob`, here on the freshly appended job)
  surfaces its outcome — including a file-level failure, `parse = none` —
  only in the stored job that polling reads; and only a malformed request
  (no file) fails synchronously. -/
theorem submitUpload_returns_before_processing (f : UploadedFile) (st : JobStore)
    (threshold : Nat) (parse : Option (List RowResult)) :
    (∃ j, submitUpload (some f) st = Except.ok (j, st ++ [j]) ∧
      j.status = JobStatus.pending ∧ j.filename = f.name ∧
      j.message = "File uploaded, processing will begin shortly" ∧
      (processJob threshold (st ++ [j]) j.id parse).getLast? =
        some (runJob threshold j parse) ∧
      (parse = none → (runJob threshold j parse).status = JobStatus.failed)) ∧
    submitUpload none st = Except.error "No file provided" := by
  constructor
  · refine ⟨newJob (List.length st) f.name, rfl, rfl, rfl, rfl, ?_, ?_⟩
    · unfold processJob
      rw [List.map_append]
      simp only [List.map_cons, List.map_nil]
      rw [getLast?_append_singleton]
      simp
    · intro hp
      rw [hp]
      rfl
  · rfl

/-- Witness-style instantiation for C7 at a concrete file and empty store
  (C7's main theorem has no hypothesis; this records a concrete run). -/
theorem submitUpload_returns_before_processing_witness :
    (∃ j, submitUpload (some ⟨"codes.csv", none⟩) [] = Except.ok (j, [] ++ [j]) ∧
      j.status = JobStatus.pending ∧ j.filename = "codes.csv" ∧
      j.message = "File uploaded, processing will begin shortly" ∧
      (processJob 3 ([] ++ [j]) j.id none).getLast? = some (runJob 3 j none) ∧
      (none = (none : Option (List RowResult)) →
        (runJob 3 j none).status = JobStatus.failed)) ∧
    submitUpload none [] = Except.error "No file provided" :=
  submitUpload_returns_before_processing ⟨"codes.csv", none⟩ [] 3 none


